import Mathlib

/-!
# nme-store-utils: `verifier/main.cpp`

A shallow embedding of the one source file of the repository, `src/verifier/main.cpp`.
The program prints a greeting, opens the fixed file `crap.cert`, decodes it as a PKCS7
container, builds an X509 trust store from one hard-coded anchor, calls `PKCS7_verify`,
frees the payload buffer and returns 0.

The file system and the OpenSSL library are outside the repository.  `main` is therefore
embedded as a function of an environment `Env` that supplies the answer of every external
call; the run of `main` is the list of external calls it makes (with their arguments), the
text written to standard output, and the value it returns.
-/

namespace Verifier

/-- A byte sequence; every element is meant to be below 256. -/
abbrev Bytes := List Nat

/-! ## Data model -/

/-- Modelled from the spec: the `Certificate` record of section 3 of the specification; it stands
for OpenSSL's `X509`, whose declaration is not part of the repository. -/
structure Certificate where
  serialNumber : Nat
  issuerName : String
  subjectName : String
  notBefore : Nat
  notAfter : Nat
  publicKeyAlgorithm : Nat
  publicKeyBytes : Bytes
  signatureAlgorithm : Nat
  signatureBytes : Bytes
  rawEncodedForm : Bytes
deriving DecidableEq, Repr

/-- Modelled from the spec: the authenticated metadata block of a signer ("signed attributes"):
its content-digest field and the exact encoded bytes the signature covers. -/
structure SignedAttributes where
  contentDigest : Bytes
  rawEncodedForm : Bytes
deriving DecidableEq, Repr

/-- Modelled from the spec: `SignerInfo` of section 3 of the specification. -/
structure SignerInfo where
  issuerAndSerial : String × Nat
  digestAlgorithm : Nat
  signedAttributes : Option SignedAttributes
  signatureAlgorithm : Nat
  signatureValue : Bytes
deriving DecidableEq, Repr

/-- Modelled from the spec: `SignatureContainer` of section 3 of the specification; it stands for
OpenSSL's `PKCS7`, whose declaration is not part of the repository. -/
structure SignatureContainer where
  signerInfos : List SignerInfo
  embeddedCertificates : List Certificate
  contentType : Nat
  optionalEmbeddedPayload : Option Bytes
deriving DecidableEq, Repr

/-- Modelled from the spec: the `TrustStore` of section 3, a set of certificates; it stands for
OpenSSL's `X509_STORE`. -/
abbrev TrustStore := List Certificate

/-- The C type `X509`. -/
abbrev X509 := Certificate

/-- The C type `PKCS7`. -/
abbrev PKCS7 := SignatureContainer

/-- The C type `X509_STORE`. -/
abbrev X509_STORE := TrustStore

/-- The C type `FILE`: an open stream, identified with the bytes that can be read from it. -/
abbrev FILE := Bytes

/-- The C type `BIO` as `main` uses it: a memory buffer, identified with its contents. -/
abbrev BIO := Bytes

/-! ## The environment of `main` -/

/-- The answers of the external functions `main` calls.  The result of a function that reports
failure by `NULL` on bad input (`fopen` and the two decoders) is an `Option`; the two
constructors `X509_STORE_new` and `BIO_new` are taken to succeed.  A function that changes an
object it is handed returns the changed object. -/
structure Env where
  /-- Call `fopen(path, mode)`: the opened stream, or `none` for `NULL`. -/
  fopen : String → String → Option FILE
  /-- Call `d2i_PKCS7_fp(fp, NULL)`: the decoded container, or `none` for `NULL`. -/
  d2i_PKCS7_fp : FILE → Option PKCS7
  /-- Call `X509_STORE_new()`: the fresh store. -/
  X509_STORE_new : X509_STORE
  /-- Call `d2i_X509(NULL, &in, len)` on the buffer `in` points into: the certificate, or `none`. -/
  d2i_X509 : Bytes → Int → Option X509
  /-- Call `X509_STORE_add_cert(store, x)`: its return value and the store afterwards. -/
  X509_STORE_add_cert : X509_STORE → Option X509 → Int × X509_STORE
  /-- Call `BIO_new(BIO_s_mem())`: the fresh memory buffer. -/
  BIO_new : BIO
  /-- Call `PKCS7_verify(p7, certs, store, indata, out, flags)`: its return value and the contents
  of `out` afterwards. -/
  PKCS7_verify : Option PKCS7 → Option (List X509) → X509_STORE → Option BIO → BIO → Int →
    Int × BIO

/-- An external call made by `main`, with the arguments it is made with. -/
inductive Call where
  | printf (format : String)
  | fopen (path mode : String)
  | d2i_PKCS7_fp (fp : FILE)
  | fclose (fp : FILE)
  | X509_STORE_new
  | d2i_X509 (buffer : Bytes) (len : Int)
  | X509_STORE_add_cert (store : X509_STORE) (x : Option X509)
  | BIO_s_mem
  | BIO_new
  | PKCS7_verify (p7 : Option PKCS7) (certs : Option (List X509)) (store : X509_STORE)
      (indata : Option BIO) (out : BIO) (flags : Int)
  | BIO_free (b : BIO)
deriving DecidableEq, Repr

/-- What a run of `main` does. -/
structure Run where
  /-- The external calls, in program order. -/
  calls : List Call
  /-- The text written to standard output. -/
  stdout : String
  /-- The value of the local `result` (line 26) when the run ends, `none` if never assigned. -/
  result : Option Int
  /-- The contents of the buffer `payload` when it is freed (line 27), `none` if never made. -/
  payload : Option BIO
  /-- The value `main` returns. -/
  status : Int
deriving DecidableEq, Repr

/-- The bytes a C string literal occupies: its characters followed by the terminating NUL. -/
def stringLiteral (s : String) : Bytes :=
  s.toList.map Char.toNat ++ [0]

/-- The literal `"12121"` of line 21, the buffer `cert` points to. -/
def cert : Bytes := stringLiteral "12121"

/-- The literal `"crap.cert"` of line 11. -/
def cpath : String := "crap.cert"

/-- The function `main` of `src/verifier/main.cpp`, lines 7 to 30.  The arguments `argc` and
`argv` are not used by the source.  The values the source ignores (the results of `printf`,
`fclose`, `X509_STORE_add_cert` and `BIO_free`, and the advanced pointer `cert` after
`d2i_X509`) are not kept. -/
def main (_argc : Int) (_argv : List String) (env : Env) : Run :=
  -- line 9
  let t₁ := [Call.printf "Hello\n"]
  let out := "Hello\n"
  -- lines 11 to 14
  let t₂ := t₁ ++ [Call.fopen cpath "rb"]
  match env.fopen cpath "rb" with
  | none => { calls := t₂, stdout := out, result := none, payload := none, status := 0 }
  | some fp =>
    -- lines 16 to 19
    let p7 := env.d2i_PKCS7_fp fp
    let t₃ := t₂ ++ [Call.d2i_PKCS7_fp fp, Call.fclose fp]
    let container := p7
    -- lines 21 to 24
    let store₀ := env.X509_STORE_new
    let certificate := env.d2i_X509 cert 6
    let store₁ := (env.X509_STORE_add_cert store₀ certificate).2
    let t₄ := t₃ ++ [Call.X509_STORE_new, Call.d2i_X509 cert 6,
      Call.X509_STORE_add_cert store₀ certificate]
    -- line 25
    let payload₀ := env.BIO_new
    let t₅ := t₄ ++ [Call.BIO_s_mem, Call.BIO_new]
    -- line 26
    let r := env.PKCS7_verify container none store₁ none payload₀ 0
    let t₆ := t₅ ++ [Call.PKCS7_verify container none store₁ none payload₀ 0]
    -- line 27
    let t₇ := t₆ ++ [Call.BIO_free r.2]
    -- line 29
    { calls := t₇, stdout := out, result := some r.1, payload := some r.2, status := 0 }

/-- What the caller of `main` can observe of a run: the output and the return value. -/
def Run.observable (r : Run) : String × Int := (r.stdout, r.status)

/-! ## The library, modelled from the specification

OpenSSL is not part of the repository.  Where a property depends on what the library does,
the library is modelled from the component contracts of section 4 of the specification. -/

/-- Modelled from the spec: the error taxonomy of the certificate decoder (section 4.1). -/
inductive DecodeError where
  | MalformedCertificate
  | UnsupportedAlgorithm
deriving DecidableEq, Repr

/-- Modelled from the spec: the bounds-checked reading of a length field of the structured
encoding (section 4.1, "bounds-checked parsing of length-prefixed nested fields").  A first
byte below 128 is the length itself; otherwise its low seven bits count the big-endian length
bytes that follow, which must all be present.  The result is the declared length and the bytes
after the length field. -/
def readLength : Bytes → Option (Nat × Bytes)
  | [] => none
  | b :: rest =>
    if b < 128 then some (b, rest)
    else if b = 128 then none
    else if rest.length < b - 128 then none
    else some ((rest.take (b - 128)).foldl (fun acc x => acc * 256 + x) 0, rest.drop (b - 128))

/-- Modelled from the spec: the certificate decoder `decode` of section 4.1, which stands for
OpenSSL's `d2i_X509`.  It reads at most `len` bytes of the buffer.  The outer frame must be a
SEQUENCE (tag 0x30) whose declared content length does not exceed the bytes that remain; the
fields inside the frame are read by `body`, which the specification leaves open. -/
def decode (body : Bytes → Except DecodeError Certificate) (buffer : Bytes) (len : Nat) :
    Except DecodeError Certificate :=
  match buffer.take len with
  | [] => .error .MalformedCertificate
  | tag :: afterTag =>
    if tag ≠ 0x30 then .error .MalformedCertificate
    else
      match readLength afterTag with
      | none => .error .MalformedCertificate
      | some (n, content) =>
        if content.length < n then .error .MalformedCertificate
        else body (content.take n)

/-- Modelled from the spec: `ChainResult` of section 4.3. -/
inductive ChainResult where
  | Trusted (chain : List Certificate)
  | Untrusted (reason : String)
deriving DecidableEq, Repr

/-- Modelled from the spec: `Verdict` of section 3. -/
inductive Verdict where
  | Valid (signerCertificate : Certificate) (recoveredPayload : Bytes)
  | Invalid (reason : String)
deriving DecidableEq, Repr

/-- Modelled from the spec: the parts of the library the specification names but does not
define, taken as parameters: the caller-supplied reference time, the digest, the signature
verifier of section 4.4, the check that an issuer's public key verifies a certificate's own
signature (section 4.3), and the container decoder of section 4.2. -/
structure Primitives where
  referenceTime : Nat
  digest : Nat → Bytes → Bytes
  signatureVerifier : Bytes → Bytes → Certificate → Nat → Nat → Bool
  certificateVerifies : Certificate → Certificate → Bool
  containerDecoder : Bytes → Option SignatureContainer

/-- Modelled from the spec: the maximum chain depth of section 4.3. -/
def maxChainDepth : Nat := 10

/-- Modelled from the spec: the issuer lookup of section 4.3, "first among `available`, falling
back to `trustStore`", for a certificate "whose subjectName matches the current certificate's
issuerName and whose public key successfully verifies the current certificate's own
signature". -/
def lookupIssuer (P : Primitives) (available : List Certificate) (trustStore : TrustStore)
    (cur : Certificate) : Option Certificate :=
  match available.find? (fun i => decide (i.subjectName = cur.issuerName) &&
      P.certificateVerifies i cur) with
  | some i => some i
  | none => trustStore.find? (fun i => decide (i.subjectName = cur.issuerName) &&
      P.certificateVerifies i cur)

/-- Modelled from the spec: the walk of the chain validator of section 4.3 from the current
certificate, with the remaining depth and the certificates already visited.  The specification
does not order the checks on one certificate; here a revisit is noticed first, then the
validity window, then membership in the trust store. -/
def validateFrom (P : Primitives) (available : List Certificate) (trustStore : TrustStore) :
    Nat → List Certificate → Certificate → ChainResult
  | 0, _, _ => .Untrusted "too long"
  | depth + 1, visited, cur =>
    if cur ∈ visited then .Untrusted "cycle"
    else if ¬ (cur.notBefore ≤ P.referenceTime ∧ P.referenceTime ≤ cur.notAfter) then
      .Untrusted "expired"
    else if cur ∈ trustStore ∨ (cur.issuerName = cur.subjectName ∧ cur ∈ trustStore) then
      .Trusted (visited ++ [cur])
    else
      match lookupIssuer P available trustStore cur with
      | none => .Untrusted "no path"
      | some i => validateFrom P available trustStore depth (visited ++ [cur]) i

/-- Modelled from the spec: `validate(signerCert, available, trustStore)` of section 4.3. -/
def validate (P : Primitives) (signerCert : Certificate) (available : List Certificate)
    (trustStore : TrustStore) : ChainResult :=
  validateFrom P available trustStore maxChainDepth [] signerCert

/-- Modelled from the spec: step 2 of section 4.5, "locate the matching signer Certificate
among embedded certificates by issuerAndSerial". -/
def signerCertificate (c : SignatureContainer) (si : SignerInfo) : Option Certificate :=
  c.embeddedCertificates.find?
    (fun x => decide ((x.issuerName, x.serialNumber) = si.issuerAndSerial))

/-- Modelled from the spec: "the actual content" of step 4 of section 4.5, "detachedContent if
detached mode, else embeddedPayload"; detached mode is a container without embedded payload. -/
def actualContent (c : SignatureContainer) (detachedContent : Option Bytes) : Option Bytes :=
  match c.optionalEmbeddedPayload with
  | some p => some p
  | none => detachedContent

/-- Modelled from the spec: steps 4 and 5 of section 4.5 for one signer: with signed attributes
their content-digest field must equal the digest of the content and the signature is checked
over the attributes; without them the signature is checked over the content. -/
def signatureCheck (P : Primitives) (sc : Certificate) (content : Bytes) (si : SignerInfo) :
    Except String Unit :=
  match si.signedAttributes with
  | some sa =>
    if sa.contentDigest ≠ P.digest si.digestAlgorithm content then .error "DigestMismatch"
    else if P.signatureVerifier sa.rawEncodedForm si.signatureValue sc si.digestAlgorithm
        si.signatureAlgorithm then .ok ()
    else .error "SignatureMismatch"
  | none =>
    if P.signatureVerifier content si.signatureValue sc si.digestAlgorithm
        si.signatureAlgorithm then .ok ()
    else .error "SignatureMismatch"

/-- Modelled from the spec: steps 2 to 5 of section 4.5 for one signer; the result is the signer
certificate and the content, or the reason recorded for this signer.  The specification names
no reason for a signer without a located certificate or for missing content; both are recorded
as failures of that signer. -/
def checkSigner (P : Primitives) (c : SignatureContainer) (trustStore : TrustStore)
    (detachedContent : Option Bytes) (si : SignerInfo) : Except String (Certificate × Bytes) :=
  match signerCertificate c si with
  | none => .error "no signer certificate"
  | some sc =>
    match validate P sc c.embeddedCertificates trustStore with
    | .Untrusted reason => .error reason
    | .Trusted _ =>
      match actualContent c detachedContent with
      | none => .error "no content"
      | some content =>
        match signatureCheck P sc content si with
        | .error reason => .error reason
        | .ok _ => .ok (sc, content)

/-- Modelled from the spec: the loop over the signers of section 4.5 ("any-of" semantics), with
the last recorded reason; step 6 when the signers are exhausted. -/
def verifySigners (P : Primitives) (c : SignatureContainer) (trustStore : TrustStore)
    (detachedContent : Option Bytes) : List SignerInfo → Option String → Verdict
  | [], lastReason => .Invalid (lastReason.getD "no valid signer")
  | si :: rest, _ =>
    match checkSigner P c trustStore detachedContent si with
    | .ok (sc, content) => .Valid sc content
    | .error reason => verifySigners P c trustStore detachedContent rest (some reason)

/-- Modelled from the spec: the orchestrator of section 4.5 on an already decoded container;
`none` is the container that failed to decode (step 1). -/
def verifyContainer (P : Primitives) (container : Option SignatureContainer)
    (trustStore : TrustStore) (detachedContent : Option Bytes) : Verdict :=
  match container with
  | none => .Invalid "malformed container"
  | some c => verifySigners P c trustStore detachedContent c.signerInfos none

/-- Modelled from the spec: `verify(containerBytes, trustStore, detachedContent)` of
section 4.5. -/
def verify (P : Primitives) (containerBytes : Bytes) (trustStore : TrustStore)
    (detachedContent : Option Bytes) : Verdict :=
  verifyContainer P (P.containerDecoder containerBytes) trustStore detachedContent

/-- Modelled from the spec: `addTrustedRoot` of section 6 on an already decoded certificate,
which stands for OpenSSL's `X509_STORE_add_cert`: a certificate is added to the store and 1
returned; a certificate that failed to decode leaves the store as it is and 0 is returned. -/
def addTrustedRoot (store : TrustStore) (x : Option Certificate) : Int × TrustStore :=
  match x with
  | none => (0, store)
  | some c => (1, store ++ [c])

/-- Modelled from the spec: the verdict as `PKCS7_verify` reports it, 1 for `Valid` with the
recovered payload written to the output buffer, 0 for `Invalid` with the buffer untouched. -/
def reportVerdict (out : BIO) : Verdict → Int × BIO
  | .Valid _ recoveredPayload => (1, out ++ recoveredPayload)
  | .Invalid _ => (0, out)

/-- Modelled from the spec: the environment in which the library behaves as the components of
section 4 of the specification.  The file system `fs` and the certificate decoder `d2i` are
left open; `PKCS7_verify` is the orchestrator, which has no counterpart of the arguments
`certs` and `flags` (`main` passes `NULL` and 0). -/
def specEnv (fs : String → String → Option FILE) (P : Primitives)
    (d2i : Bytes → Int → Option X509) : Env where
  fopen := fs
  d2i_PKCS7_fp := P.containerDecoder
  X509_STORE_new := []
  d2i_X509 := d2i
  X509_STORE_add_cert := addTrustedRoot
  BIO_new := []
  PKCS7_verify := fun p7 _certs store indata out _flags =>
    reportVerdict out (verifyContainer P p7 store indata)

/-- Modelled from the spec: the certificate decoder of section 4.1 as `d2i_X509` reports it,
the certificate on success and `NULL` on any decode error. -/
def boundsCheckedDecoder (body : Bytes → Except DecodeError Certificate) (buffer : Bytes)
    (len : Int) : Option X509 :=
  match decode body buffer len.toNat with
  | .ok c => some c
  | .error _ => none

/-- The store `main` hands to `PKCS7_verify`: the fresh store after the one
`X509_STORE_add_cert` of line 24. -/
def builtStore (env : Env) : X509_STORE :=
  (env.X509_STORE_add_cert env.X509_STORE_new (env.d2i_X509 cert 6)).2

/-- Modelled from the spec: "chains to a root in the Trust Store" (glossary, chain of trust): the
certificate is in the trust store, or an available or trusted certificate whose subject is its
issuer and whose key verifies its signature chains to a root. -/
inductive ChainsToRoot (P : Primitives) (available : List Certificate)
    (trustStore : TrustStore) : Certificate → Prop where
  | root {c : Certificate} : c ∈ trustStore → ChainsToRoot P available trustStore c
  | step {c i : Certificate} : i ∈ available ∨ i ∈ trustStore →
      i.subjectName = c.issuerName → P.certificateVerifies i c = true →
      ChainsToRoot P available trustStore i → ChainsToRoot P available trustStore c

/-! ## Classification of calls -/

/-- The calls that construct or change a trust store. -/
def Call.isStoreMutation : Call → Bool
  | .X509_STORE_new => true
  | .X509_STORE_add_cert _ _ => true
  | _ => false

/-- The verification call. -/
def Call.isVerification : Call → Bool
  | .PKCS7_verify _ _ _ _ _ _ => true
  | _ => false

/-! ## Concrete environments -/

namespace Sample

/-- A self-signed root certificate. -/
def rootR : Certificate where
  serialNumber := 1
  issuerName := "R"
  subjectName := "R"
  notBefore := 0
  notAfter := 1000
  publicKeyAlgorithm := 1
  publicKeyBytes := [7]
  signatureAlgorithm := 1
  signatureBytes := [7]
  rawEncodedForm := [1]

/-- A leaf certificate issued by `rootR`. -/
def leafL : Certificate where
  serialNumber := 2
  issuerName := "R"
  subjectName := "L"
  notBefore := 0
  notAfter := 1000
  publicKeyAlgorithm := 1
  publicKeyBytes := [9]
  signatureAlgorithm := 1
  signatureBytes := [7]
  rawEncodedForm := [2]

/-- A stand-in digest: the byte sum. -/
def digest (_alg : Nat) (b : Bytes) : Bytes := [b.sum % 256]

/-- The signature of `leafL` over `content` in the stand-in scheme: the key, then the digest. -/
def signedBy (key : Bytes) (content : Bytes) : Bytes := key ++ digest 0 content

/-- An enveloping container: `content` embedded and signed by `leafL`, which is embedded. -/
def enveloping (content : Bytes) : SignatureContainer where
  signerInfos := [{ issuerAndSerial := ("R", 2), digestAlgorithm := 0, signedAttributes := none,
                    signatureAlgorithm := 1, signatureValue := signedBy [9] content }]
  embeddedCertificates := [leafL]
  contentType := 2
  optionalEmbeddedPayload := some content

/-- A detached container: the signature of `leafL` over `content`, which is not embedded. -/
def detached (content : Bytes) : SignatureContainer where
  signerInfos := [{ issuerAndSerial := ("R", 2), digestAlgorithm := 0, signedAttributes := none,
                    signatureAlgorithm := 1, signatureValue := signedBy [9] content }]
  embeddedCertificates := [leafL]
  contentType := 2
  optionalEmbeddedPayload := none

/-- A stand-in container encoding: a first byte 1 announces an enveloping container of the
bytes that follow, a first byte 2 a detached signature over them; nothing else decodes. -/
def containerDecoder : Bytes → Option SignatureContainer
  | 1 :: content => some (enveloping content)
  | 2 :: content => some (detached content)
  | _ => none

/-- Stand-in primitives with reference time 100. -/
def primitives : Primitives where
  referenceTime := 100
  digest := digest
  signatureVerifier := fun signedBytes signature signerCert digestAlgorithm _ =>
    decide (signature = signerCert.publicKeyBytes ++ digest digestAlgorithm signedBytes)
  certificateVerifies := fun issuer c => decide (c.signatureBytes = issuer.publicKeyBytes)
  containerDecoder := containerDecoder

/-- A file system in which `crap.cert` has the given contents, or cannot be opened. -/
def fileSystem (contents : Option Bytes) : String → String → Option FILE :=
  fun path _ => if path = "crap.cert" then contents else none

/-- The bytes of "hello". -/
def hello : Bytes := [104, 101, 108, 108, 111]

/-- The bounds-checked certificate decoder with a body that accepts every frame as `rootR`. -/
def checkedDecoder : Bytes → Int → Option X509 := boundsCheckedDecoder (fun _ => .ok rootR)

/-- The library of the specification with the bounds-checked decoder, `crap.cert` holding the
given bytes. -/
def checkedEnv (contents : Option Bytes) : Env :=
  specEnv (fileSystem contents) primitives checkedDecoder

end Sample

/-! ## Lemmas -/

/-- The run of `main` when `crap.cert` cannot be opened. -/
theorem main_of_fopen_none (argc : Int) (argv : List String) (env : Env)
    (h : env.fopen cpath "rb" = none) :
    main argc argv env =
      { calls := [Call.printf "Hello\n", Call.fopen cpath "rb"], stdout := "Hello\n",
        result := none, payload := none, status := 0 } := by
  simp only [main, h, List.singleton_append]

/-- The run of `main` when `crap.cert` opens. -/
theorem main_of_fopen_some (argc : Int) (argv : List String) (env : Env) (fp : FILE)
    (h : env.fopen cpath "rb" = some fp) :
    main argc argv env =
      { calls := [Call.printf "Hello\n", Call.fopen cpath "rb", Call.d2i_PKCS7_fp fp,
          Call.fclose fp, Call.X509_STORE_new, Call.d2i_X509 cert 6,
          Call.X509_STORE_add_cert env.X509_STORE_new (env.d2i_X509 cert 6),
          Call.BIO_s_mem, Call.BIO_new,
          Call.PKCS7_verify (env.d2i_PKCS7_fp fp) none (builtStore env) none env.BIO_new 0,
          Call.BIO_free
            (env.PKCS7_verify (env.d2i_PKCS7_fp fp) none (builtStore env) none env.BIO_new 0).2],
        stdout := "Hello\n",
        result := some
          (env.PKCS7_verify (env.d2i_PKCS7_fp fp) none (builtStore env) none env.BIO_new 0).1,
        payload := some
          (env.PKCS7_verify (env.d2i_PKCS7_fp fp) none (builtStore env) none env.BIO_new 0).2,
        status := 0 } := by
  simp only [main, h, builtStore, List.singleton_append, List.cons_append, List.nil_append]

/-- A chain the validator trusts is a path to a root of the trust store. -/
theorem chainsToRoot_of_validateFrom (P : Primitives) (available : List Certificate)
    (trustStore : TrustStore) (depth : Nat) :
    ∀ (visited : List Certificate) (cur : Certificate) (chain : List Certificate),
      validateFrom P available trustStore depth visited cur = .Trusted chain →
      ChainsToRoot P available trustStore cur := by
  induction depth with
  | zero => intro visited cur chain h; simp [validateFrom] at h
  | succ d ih =>
    intro visited cur chain h
    unfold validateFrom at h
    split_ifs at h with h1 h2 h3
    · rcases h3 with h3 | ⟨_, h3⟩ <;> exact ChainsToRoot.root h3
    · cases hl : lookupIssuer P available trustStore cur with
      | none => simp [hl] at h
      | some i =>
        simp only [hl] at h
        have hi := ih _ _ _ h
        unfold lookupIssuer at hl
        cases ha : available.find? (fun i => decide (i.subjectName = cur.issuerName) &&
            P.certificateVerifies i cur) with
        | some a =>
          simp only [ha, Option.some.injEq] at hl
          subst hl
          have hp := List.find?_some ha
          have hm := List.mem_of_find?_eq_some ha
          simp only [Bool.and_eq_true, decide_eq_true_eq] at hp
          exact ChainsToRoot.step (Or.inl hm) hp.1 hp.2 hi
        | none =>
          simp only [ha] at hl
          have hp := List.find?_some hl
          have hm := List.mem_of_find?_eq_some hl
          simp only [Bool.and_eq_true, decide_eq_true_eq] at hp
          exact ChainsToRoot.step (Or.inr hm) hp.1 hp.2 hi

/-- Nothing chains to a root of the empty trust store. -/
theorem not_chainsToRoot_of_empty (P : Primitives) (available : List Certificate)
    (c : Certificate) : ¬ ChainsToRoot P available [] c := by
  intro h
  generalize hts : ([] : TrustStore) = ts at h
  induction h with
  | root hm => subst hts; simp at hm
  | step _ _ _ _ ih => exact ih

/-- A signer that passes was located, trusted, had content and a valid signature. -/
theorem checkSigner_ok (P : Primitives) (c : SignatureContainer) (trustStore : TrustStore)
    (detachedContent : Option Bytes) (si : SignerInfo) (sc : Certificate) (content : Bytes)
    (h : checkSigner P c trustStore detachedContent si = .ok (sc, content)) :
    signerCertificate c si = some sc ∧
    (∃ chain, validate P sc c.embeddedCertificates trustStore = .Trusted chain) ∧
    actualContent c detachedContent = some content ∧
    signatureCheck P sc content si = .ok () := by
  unfold checkSigner at h
  split at h
  · simp at h
  · rename_i sc' hsc
    split at h
    · simp at h
    · rename_i chain hch
      split at h
      · simp at h
      · rename_i content' hcontent
        split at h
        · simp at h
        · rename_i u hsig
          simp only [Except.ok.injEq, Prod.mk.injEq] at h
          obtain ⟨rfl, rfl⟩ := h
          exact ⟨hsc, ⟨chain, hch⟩, hcontent, hsig⟩

/-- When no signer passes, the verdict is Invalid. -/
theorem verifySigners_invalid (P : Primitives) (c : SignatureContainer) (trustStore : TrustStore)
    (detachedContent : Option Bytes) (sis : List SignerInfo) :
    ∀ lastReason : Option String,
      (∀ si ∈ sis, ∀ r, checkSigner P c trustStore detachedContent si ≠ .ok r) →
      ∃ reason, verifySigners P c trustStore detachedContent sis lastReason = .Invalid reason := by
  induction sis with
  | nil => intro last _; exact ⟨_, rfl⟩
  | cons si rest ih =>
    intro last h
    unfold verifySigners
    cases hc : checkSigner P c trustStore detachedContent si with
    | ok r => exact absurd hc (h si (List.mem_cons_self _ _) r)
    | error reason =>
      simp only
      exact ih (some reason) (fun s hs r => h s (List.mem_cons_of_mem _ hs) r)

/-- The run of `main` when `crap.cert` opens, in the library of the specification. -/
theorem main_specEnv_result (fs : String → String → Option FILE) (P : Primitives)
    (d2i : Bytes → Int → Option X509) (argc : Int) (argv : List String) (fp : FILE)
    (h : fs cpath "rb" = some fp) :
    main argc argv (specEnv fs P d2i) =
      { calls := [Call.printf "Hello\n", Call.fopen cpath "rb", Call.d2i_PKCS7_fp fp,
          Call.fclose fp, Call.X509_STORE_new, Call.d2i_X509 cert 6,
          Call.X509_STORE_add_cert [] (d2i cert 6), Call.BIO_s_mem, Call.BIO_new,
          Call.PKCS7_verify (P.containerDecoder fp) none (builtStore (specEnv fs P d2i)) none [] 0,
          Call.BIO_free (reportVerdict [] (verifyContainer P (P.containerDecoder fp)
            (builtStore (specEnv fs P d2i)) none)).2],
        stdout := "Hello\n",
        result := some (reportVerdict [] (verifyContainer P (P.containerDecoder fp)
            (builtStore (specEnv fs P d2i)) none)).1,
        payload := some (reportVerdict [] (verifyContainer P (P.containerDecoder fp)
            (builtStore (specEnv fs P d2i)) none)).2,
        status := 0 } := by
  have h' : (specEnv fs P d2i).fopen cpath "rb" = some fp := h
  rw [main_of_fopen_some argc argv _ fp h']
  rfl

/-- In the library of the specification an anchor that does not decode leaves the store
empty. -/
theorem builtStore_specEnv_of_none (fs : String → String → Option FILE) (P : Primitives)
    (d2i : Bytes → Int → Option X509) (h : d2i cert 6 = none) :
    builtStore (specEnv fs P d2i) = [] := by
  show (addTrustedRoot [] (d2i cert 6)).2 = []
  rw [h]
  rfl

/-- With the bounds-checked certificate decoder the anchor of `main` adds nothing: the store
`main` builds is empty and no certificate chains to a root of it. -/
theorem not_chainsToRoot_builtStore (fs : String → String → Option FILE) (P : Primitives)
    (body : Bytes → Except DecodeError Certificate) (available : List Certificate)
    (c : Certificate) :
    builtStore (specEnv fs P (boundsCheckedDecoder body)) = [] ∧
    ¬ ChainsToRoot P available (builtStore (specEnv fs P (boundsCheckedDecoder body))) c := by
  have h : builtStore (specEnv fs P (boundsCheckedDecoder body)) = [] :=
    builtStore_specEnv_of_none fs P (boundsCheckedDecoder body) rfl
  refine ⟨h, ?_⟩
  rw [h]
  exact not_chainsToRoot_of_empty P available c

/-- The caller of `main` observes the same output and return value in every run. -/
theorem main_observable (argc : Int) (argv : List String) (env : Env) :
    (main argc argv env).observable = ("Hello\n", 0) := by
  cases h : env.fopen cpath "rb" with
  | none => rw [main_of_fopen_none argc argv env h]; rfl
  | some fp => rw [main_of_fopen_some argc argv env fp h]; rfl

/-! ## C2: a signer that chains to no root of the store is never reported Valid -/

/-- C2.  In the library of the specification, for every file content and every container decoded
from it: if no located signer certificate chains to a root of the store `main` builds (the
fresh store after the one `X509_STORE_add_cert` on the decoded anchor), the verification call
reports Invalid (result 0).  In particular, if the anchor does not decode, that store is empty
and the result is not Valid whatever the file holds: it is 0 whenever the file opens. -/
theorem C2_untrusted_never_valid (fs : String → String → Option FILE) (P : Primitives)
    (d2i : Bytes → Int → Option X509) (argc : Int) (argv : List String) :
    (∀ (fp : FILE) (c : SignatureContainer), fs "crap.cert" "rb" = some fp →
      P.containerDecoder fp = some c →
      (∀ si ∈ c.signerInfos, ∀ sc, signerCertificate c si = some sc →
        ¬ ChainsToRoot P c.embeddedCertificates (builtStore (specEnv fs P d2i)) sc) →
      (main argc argv (specEnv fs P d2i)).result = some 0) ∧
    (d2i cert 6 = none →
      builtStore (specEnv fs P d2i) = [] ∧
      (main argc argv (specEnv fs P d2i)).result ≠ some 1 ∧
      ∀ fp : FILE, fs "crap.cert" "rb" = some fp →
        (main argc argv (specEnv fs P d2i)).result = some 0) := by
  have key : ∀ (fp : FILE) (c : SignatureContainer), fs "crap.cert" "rb" = some fp →
      P.containerDecoder fp = some c →
      (∀ si ∈ c.signerInfos, ∀ sc, signerCertificate c si = some sc →
        ¬ ChainsToRoot P c.embeddedCertificates (builtStore (specEnv fs P d2i)) sc) →
      (main argc argv (specEnv fs P d2i)).result = some 0 := by
    intro fp c hopen hdec hno
    have hall : ∀ si ∈ c.signerInfos, ∀ r,
        checkSigner P c (builtStore (specEnv fs P d2i)) none si ≠ .ok r := by
      intro si hsi r hr
      obtain ⟨sc, content⟩ := r
      obtain ⟨hsc, ⟨chain, hch⟩, _, _⟩ := checkSigner_ok P c _ none si sc content hr
      exact hno si hsi sc hsc (chainsToRoot_of_validateFrom P _ _ _ _ _ _ hch)
    obtain ⟨reason, hv⟩ := verifySigners_invalid P c (builtStore (specEnv fs P d2i)) none
      c.signerInfos none hall
    have hvc : verifyContainer P (P.containerDecoder fp) (builtStore (specEnv fs P d2i)) none =
        .Invalid reason := by
      rw [hdec]; exact hv
    rw [main_specEnv_result fs P d2i argc argv fp hopen, hvc]
    rfl
  refine ⟨key, ?_⟩
  intro hnone
  have hstore := builtStore_specEnv_of_none fs P d2i hnone
  have hopened : ∀ fp : FILE, fs "crap.cert" "rb" = some fp →
      (main argc argv (specEnv fs P d2i)).result = some 0 := by
    intro fp hopen
    cases hdec : P.containerDecoder fp with
    | none =>
      rw [main_specEnv_result fs P d2i argc argv fp hopen, hdec]
      rfl
    | some c =>
      apply key fp c hopen hdec
      intro si _ sc _
      rw [hstore]
      exact not_chainsToRoot_of_empty P _ sc
  refine ⟨hstore, ?_, hopened⟩
  cases hopen : fs "crap.cert" "rb" with
  | none =>
    have h' : (specEnv fs P d2i).fopen cpath "rb" = none := hopen
    rw [main_of_fopen_none argc argv _ h']
    simp
  | some fp =>
    rw [hopened fp hopen]
    simp

/-- C2 at the enveloping container of "hello" with the bounds-checked certificate decoder: the
anchor does not decode, the store is empty, the signer chains to no root, and the result is
0. -/
theorem C2_untrusted_never_valid_witness :
    Sample.checkedDecoder cert 6 = none ∧
    (main 1 ["verifier"] (Sample.checkedEnv (some (1 :: Sample.hello)))).result = some 0 ∧
    builtStore (Sample.checkedEnv (some (1 :: Sample.hello))) = [] ∧
    (main 1 ["verifier"] (Sample.checkedEnv (some (1 :: Sample.hello)))).result ≠ some 1 :=
  ⟨by decide,
   (C2_untrusted_never_valid (Sample.fileSystem (some (1 :: Sample.hello))) Sample.primitives
      Sample.checkedDecoder 1 ["verifier"]).1 (1 :: Sample.hello)
      (Sample.enveloping Sample.hello) (by decide) (by rfl)
      (fun _ _ sc _ => not_chainsToRoot_of_empty Sample.primitives _ sc),
   ((C2_untrusted_never_valid (Sample.fileSystem (some (1 :: Sample.hello))) Sample.primitives
      Sample.checkedDecoder 1 ["verifier"]).2 (by decide)).1,
   ((C2_untrusted_never_valid (Sample.fileSystem (some (1 :: Sample.hello))) Sample.primitives
      Sample.checkedDecoder 1 ["verifier"]).2 (by decide)).2.1⟩

/-! ## C3: the return value of `main` reflects the verification outcome -/

/-- C4, refuted as stated.  With `crap.cert` holding the single byte 0, which does not decode as
a container, `main` goes on to create the store, decode the anchor, add it, create the buffer
and call `PKCS7_verify` on the absent container; it returns 0 and writes only the greeting. -/
theorem C4_decode_failure_not_surfaced :
    (Sample.checkedEnv (some [0])).fopen "crap.cert" "rb" = some [0] ∧
    (Sample.checkedEnv (some [0])).d2i_PKCS7_fp [0] = none ∧
    main 1 ["verifier"] (Sample.checkedEnv (some [0])) =
      { calls := [Call.printf "Hello\n", Call.fopen "crap.cert" "rb", Call.d2i_PKCS7_fp [0],
          Call.fclose [0], Call.X509_STORE_new, Call.d2i_X509 [0x31, 0x32, 0x31, 0x32, 0x31, 0] 6,
          Call.X509_STORE_add_cert [] none, Call.BIO_s_mem, Call.BIO_new,
          Call.PKCS7_verify none none [] none [] 0, Call.BIO_free []],
        stdout := "Hello\n", result := some 0, payload := some [], status := 0 } := by
  decide

/-- C4, amended.  Whenever decoding the container fails (`d2i_PKCS7_fp` yields `NULL`), `main`
closes the file right after the decode attempt and returns 0 having written only the greeting,
the same output and return value as in every other run: no verdict naming the decode failure
reaches the caller. -/
theorem C4_decode_failure_returns_zero (argc : Int) (argv : List String) (env : Env) (fp : FILE)
    (hopen : env.fopen "crap.cert" "rb" = some fp) (_hdec : env.d2i_PKCS7_fp fp = none) :
    (main argc argv env).calls.take 4 =
      [Call.printf "Hello\n", Call.fopen "crap.cert" "rb", Call.d2i_PKCS7_fp fp,
        Call.fclose fp] ∧
    (main argc argv env).status = 0 ∧
    (main argc argv env).stdout = "Hello\n" ∧
    ∀ (argc' : Int) (argv' : List String) (env' : Env),
      (main argc' argv' env').observable = (main argc argv env).observable := by
  have h := main_observable argc argv env
  refine ⟨?_, congrArg Prod.snd h, congrArg Prod.fst h, ?_⟩
  · rw [main_of_fopen_some argc argv env fp hopen]
    rfl
  · intro argc' argv' env'
    rw [h, main_observable]

/-- The amended C4 with `crap.cert` holding the single byte 0. -/
theorem C4_decode_failure_returns_zero_witness :
    (main 1 ["verifier"] (Sample.checkedEnv (some [0]))).calls.take 4 =
      [Call.printf "Hello\n", Call.fopen "crap.cert" "rb", Call.d2i_PKCS7_fp [0],
        Call.fclose [0]] ∧
    (main 1 ["verifier"] (Sample.checkedEnv (some [0]))).status = 0 ∧
    (main 1 ["verifier"] (Sample.checkedEnv (some [0]))).stdout = "Hello\n" ∧
    ∀ (argc' : Int) (argv' : List String) (env' : Env),
      (main argc' argv' env').observable =
        (main 1 ["verifier"] (Sample.checkedEnv (some [0]))).observable :=
  C4_decode_failure_returns_zero 1 ["verifier"] (Sample.checkedEnv (some [0])) [0]
    (by decide) (by decide)

/-! ## C5: the hard-coded anchor does not decode -/

/-- C5.  The buffer `main` hands to the certificate decoder is the six bytes 0x31 0x32 0x31 0x32
0x31 0x00.  Its leading tag is 0x31, not SEQUENCE 0x30; its declared content length is
0x32 = 50, more than the 4 bytes that remain.  The bounds-checked decoder fails on it with
`MalformedCertificate` whatever the body reader is, and would fail on the length alone were the
tag 0x30; as `d2i_X509` it yields no certificate. -/
theorem C5_anchor_malformed (body : Bytes → Except DecodeError Certificate) :
    cert = [0x31, 0x32, 0x31, 0x32, 0x31, 0x00] ∧
    cert.head? = some 0x31 ∧
    readLength cert.tail = some (0x32, [0x31, 0x32, 0x31, 0x00]) ∧
    [0x31, 0x32, 0x31, 0x00].length < 0x32 ∧
    decode body cert 6 = .error .MalformedCertificate ∧
    decode body (0x30 :: cert.tail) 6 = .error .MalformedCertificate ∧
    boundsCheckedDecoder body cert 6 = none := by
  refine ⟨rfl, rfl, rfl, by decide, rfl, rfl, rfl⟩

/-! ## C6: detached content -/

/-- C6, refuted as stated.  With `crap.cert` holding a detached signature over "hello" (a
container without embedded payload), the verification call of `main` is made with `NULL` for
the detached content and reports Invalid, although the same container verifies as Valid
against its root when the content "hello" is supplied. -/
theorem C6_detached_content_not_passed :
    (Sample.detached Sample.hello).optionalEmbeddedPayload = none ∧
    (Sample.checkedEnv (some (2 :: Sample.hello))).d2i_PKCS7_fp (2 :: Sample.hello) =
      some (Sample.detached Sample.hello) ∧
    (main 1 ["verifier"] (Sample.checkedEnv (some (2 :: Sample.hello)))).calls[9]? =
      some (Call.PKCS7_verify (some (Sample.detached Sample.hello)) none [] none [] 0) ∧
    (main 1 ["verifier"] (Sample.checkedEnv (some (2 :: Sample.hello)))).result = some 0 ∧
    verifyContainer Sample.primitives (some (Sample.detached Sample.hello)) [Sample.rootR]
      (some Sample.hello) = .Valid Sample.leafL Sample.hello := by
  decide

/-- C6, amended.  In every execution the verification call of `main` is made with `NULL` for
the detached content, also for a container that carries no embedded payload: `main` never
passes detached content to the verification call. -/
theorem C6_indata_always_null (argc : Int) (argv : List String) (env : Env)
    (p7 : Option PKCS7) (certs : Option (List X509)) (store : X509_STORE)
    (indata : Option BIO) (out : BIO) (flags : Int)
    (h : Call.PKCS7_verify p7 certs store indata out flags ∈ (main argc argv env).calls) :
    indata = none := by
  cases hopen : env.fopen cpath "rb" with
  | none =>
    rw [main_of_fopen_none argc argv env hopen] at h
    simp at h
  | some fp =>
    rw [main_of_fopen_some argc argv env fp hopen] at h
    simp at h
    exact h.2.2.2.1

/-- The amended C6 at the detached signature over "hello". -/
theorem C6_indata_always_null_witness :
    Call.PKCS7_verify (some (Sample.detached Sample.hello)) none [] none [] 0 ∈
      (main 1 ["verifier"] (Sample.checkedEnv (some (2 :: Sample.hello)))).calls ∧
    (none : Option BIO) = none :=
  ⟨by decide, C6_indata_always_null 1 ["verifier"]
    (Sample.checkedEnv (some (2 :: Sample.hello))) (some (Sample.detached Sample.hello))
    none [] none [] 0 (by decide)⟩

/-! ## C7: the store is complete before verification and untouched afterwards -/

/-- C7.  In every execution of `main` there is at most one `PKCS7_verify` call, and every call
that creates or changes a trust store (`X509_STORE_new`, `X509_STORE_add_cert`) stands strictly
before it in the sequence of external calls, so none occurs at or after it.  When the file
opens, the sequence has `X509_STORE_new` at position 4, the one `X509_STORE_add_cert` at
position 6 and the one `PKCS7_verify` at position 9, made on the store those two calls
built. -/
theorem C7_store_built_before_verification (argc : Int) (argv : List String) (env : Env) :
    ((main argc argv env).calls.filter Call.isVerification).length ≤ 1 ∧
    (∀ (i j : Nat) (c d : Call), (main argc argv env).calls[i]? = some c →
      (main argc argv env).calls[j]? = some d →
      c.isVerification = true → d.isStoreMutation = true → j < i) ∧
    (∀ fp, env.fopen "crap.cert" "rb" = some fp →
      (main argc argv env).calls[4]? = some Call.X509_STORE_new ∧
      (main argc argv env).calls[6]? =
        some (Call.X509_STORE_add_cert env.X509_STORE_new (env.d2i_X509 cert 6)) ∧
      (main argc argv env).calls[9]? =
        some (Call.PKCS7_verify (env.d2i_PKCS7_fp fp) none (builtStore env) none env.BIO_new 0) ∧
      ((main argc argv env).calls.filter Call.isStoreMutation).length = 2 ∧
      ((main argc argv env).calls.filter Call.isVerification).length = 1) := by
  cases h : env.fopen cpath "rb" with
  | none =>
    rw [main_of_fopen_none argc argv env h]
    refine ⟨by decide, ?_, ?_⟩
    · intro i j c d hi _ hc _
      have hm := List.getElem?_mem hi
      simp only [List.mem_cons, List.mem_singleton, List.not_mem_nil, or_false] at hm
      rcases hm with rfl | rfl <;> simp [Call.isVerification] at hc
    · intro fp hfp
      have h' : env.fopen "crap.cert" "rb" = none := h
      rw [h'] at hfp
      simp at hfp
  | some fp =>
    rw [main_of_fopen_some argc argv env fp h]
    refine ⟨by simp [List.filter, Call.isVerification], ?_, ?_⟩
    · intro i j c d hi hj hc hd
      have hi' : i < 11 := by
        have := (List.getElem?_eq_some.mp hi).1
        simpa using this
      have hj' : j < 11 := by
        have := (List.getElem?_eq_some.mp hj).1
        simpa using this
      interval_cases i <;> simp at hi <;> subst hi <;> simp [Call.isVerification] at hc
      interval_cases j <;> simp at hj <;> subst hj <;> simp [Call.isStoreMutation] at hd <;>
        omega
    · intro fp' hfp'
      have h' : env.fopen "crap.cert" "rb" = some fp := h
      rw [h'] at hfp'
      simp only [Option.some.injEq] at hfp'
      subst hfp'
      simp [List.filter, Call.isVerification, Call.isStoreMutation]

/-- C7 at the run on the enveloping container of "hello": the store creation at position 4
stands before the verification at position 9. -/
theorem C7_store_built_before_verification_witness :
    (main 1 ["verifier"] (Sample.checkedEnv (some (1 :: Sample.hello)))).calls[9]? =
      some (Call.PKCS7_verify (some (Sample.enveloping Sample.hello)) none [] none [] 0) ∧
    (main 1 ["verifier"] (Sample.checkedEnv (some (1 :: Sample.hello)))).calls[4]? =
      some Call.X509_STORE_new ∧
    4 < 9 :=
  ⟨by decide, by decide,
   (C7_store_built_before_verification 1 ["verifier"]
      (Sample.checkedEnv (some (1 :: Sample.hello)))).2.1 9 4
      (Call.PKCS7_verify (some (Sample.enveloping Sample.hello)) none [] none [] 0)
      Call.X509_STORE_new (by decide) (by decide) rfl rfl⟩

/-! ## C8: the length handed to the certificate decoder fits the buffer -/

/-- C8.  The literal `"12121"` occupies exactly 6 bytes, the last being the terminating NUL.
In every execution, each `d2i_X509` call of `main` is made on that buffer with length 6, which
does not exceed the size of the buffer, so every index below the length (0 to 5) is inside
it. -/
theorem C8_length_within_buffer (argc : Int) (argv : List String) (env : Env) :
    cert = [0x31, 0x32, 0x31, 0x32, 0x31, 0x00] ∧ cert.length = 6 ∧
    cert.getLast? = some 0 ∧
    ∀ (buffer : Bytes) (len : Int), Call.d2i_X509 buffer len ∈ (main argc argv env).calls →
      buffer = cert ∧ len = 6 ∧ len ≤ buffer.length ∧
      ∀ i : Nat, (i : Int) < len → i < buffer.length := by
  refine ⟨rfl, rfl, rfl, ?_⟩
  intro buffer len hmem
  have hb : buffer = cert ∧ len = 6 := by
    cases h : env.fopen cpath "rb" with
    | none =>
      rw [main_of_fopen_none argc argv env h] at hmem
      simp at hmem
    | some fp =>
      rw [main_of_fopen_some argc argv env fp h] at hmem
      simpa using hmem
  obtain ⟨rfl, rfl⟩ := hb
  refine ⟨rfl, rfl, by decide, ?_⟩
  intro i hi
  have : cert.length = 6 := rfl
  omega

/-- C8 at the run on the enveloping container of "hello". -/
theorem C8_length_within_buffer_witness :
    Call.d2i_X509 cert 6 ∈
      (main 1 ["verifier"] (Sample.checkedEnv (some (1 :: Sample.hello)))).calls ∧
    ((6 : Int) ≤ cert.length) :=
  ⟨by decide,
   ((C8_length_within_buffer 1 ["verifier"]
      (Sample.checkedEnv (some (1 :: Sample.hello)))).2.2.2 cert 6 (by decide)).2.2.1⟩

/-! ## C9: the file cannot be opened -/

/-- C9.  If `crap.cert` cannot be opened, `main` returns 0 having written exactly the greeting
"Hello" and a newline, and its external calls are the `printf` of the greeting and the `fopen`,
nothing else: no container decode, no store creation, no certificate decode, no verification
and no `fclose`. -/
theorem C9_unopenable_file (argc : Int) (argv : List String) (env : Env)
    (h : env.fopen "crap.cert" "rb" = none) :
    (main argc argv env).status = 0 ∧ (main argc argv env).stdout = "Hello\n" ∧
    (main argc argv env).calls = [Call.printf "Hello\n", Call.fopen "crap.cert" "rb"] := by
  rw [main_of_fopen_none argc argv env h]
  exact ⟨rfl, rfl, rfl⟩

/-- C9 in a file system where `crap.cert` cannot be opened. -/
theorem C9_unopenable_file_witness :
    (Sample.checkedEnv none).fopen "crap.cert" "rb" = none ∧
    (main 1 ["verifier"] (Sample.checkedEnv none)).status = 0 ∧
    (main 1 ["verifier"] (Sample.checkedEnv none)).stdout = "Hello\n" ∧
    (main 1 ["verifier"] (Sample.checkedEnv none)).calls =
      [Call.printf "Hello\n", Call.fopen "crap.cert" "rb"] :=
  ⟨by decide, C9_unopenable_file 1 ["verifier"] (Sample.checkedEnv none) (by decide)⟩

/-! ## C10: the command line does not matter -/

/-- C10.  For any two command lines and the same environment (file system and library answers),
the runs of `main` are equal: the same external calls with the same arguments, the same output
and the same return value.  Every run starts with the `printf` of the greeting and the `fopen`
of the fixed path `crap.cert`; every `fopen` is on that path and every `d2i_X509` on the same
fixed six anchor bytes with length 6. -/
theorem C10_independent_of_arguments (argc argc' : Int) (argv argv' : List String) (env : Env) :
    main argc argv env = main argc' argv' env ∧
    (main argc argv env).calls.take 2 = [Call.printf "Hello\n", Call.fopen "crap.cert" "rb"] ∧
    (∀ path mode, Call.fopen path mode ∈ (main argc argv env).calls →
      path = "crap.cert" ∧ mode = "rb") ∧
    (∀ buffer len, Call.d2i_X509 buffer len ∈ (main argc argv env).calls →
      buffer = [0x31, 0x32, 0x31, 0x32, 0x31, 0x00] ∧ len = 6) := by
  refine ⟨rfl, ?_, ?_, ?_⟩
  · cases h : env.fopen cpath "rb" with
    | none => rw [main_of_fopen_none argc argv env h]; rfl
    | some fp => rw [main_of_fopen_some argc argv env fp h]; rfl
  · intro path mode hm
    cases h : env.fopen cpath "rb" with
    | none =>
      rw [main_of_fopen_none argc argv env h] at hm
      simpa [cpath] using hm
    | some fp =>
      rw [main_of_fopen_some argc argv env fp h] at hm
      simpa [cpath] using hm
  · intro buffer len hm
    cases h : env.fopen cpath "rb" with
    | none =>
      rw [main_of_fopen_none argc argv env h] at hm
      simp at hm
    | some fp =>
      rw [main_of_fopen_some argc argv env fp h] at hm
      simp at hm
      exact ⟨hm.1.trans rfl, hm.2⟩

/-- C10 at two different command lines on the enveloping container of "hello". -/
theorem C10_independent_of_arguments_witness :
    main 1 ["verifier"] (Sample.checkedEnv (some (1 :: Sample.hello))) =
      main 3 ["verifier", "other.cert", "-v"] (Sample.checkedEnv (some (1 :: Sample.hello))) ∧
    Call.fopen "crap.cert" "rb" ∈
      (main 1 ["verifier"] (Sample.checkedEnv (some (1 :: Sample.hello)))).calls ∧
    ("crap.cert" = "crap.cert" ∧ "rb" = "rb") :=
  ⟨(C10_independent_of_arguments 1 3 ["verifier"] ["verifier", "other.cert", "-v"]
      (Sample.checkedEnv (some (1 :: Sample.hello)))).1,
   by decide,
   (C10_independent_of_arguments 1 3 ["verifier"] ["verifier", "other.cert", "-v"]
      (Sample.checkedEnv (some (1 :: Sample.hello)))).2.2.1 "crap.cert" "rb" (by decide)⟩

end Verifier
